import Mathlib

/-!
Verification development for the Galileo E1 DLL + PLL VEML tracking block
(`galileo_e1_dll_pll_veml_tracking_cc.cc`).

The C++ block is embedded shallowly: floating-point scalars are modelled as
exact rationals (`ℚ`), machine integers as `ℤ`/`ℕ`, the C library functions
`trunc`, `round` (half away from zero) and `fmod` (sign-matched remainder)
as the computable functions `ctrunc`, `cround`, `cfmod` below, and sample
buffers / the local code table as total functions out of `ℤ`.  External
collaborators that are not part of this translation unit (the VOLK
correlation kernel, the discriminator library, the C/N0 estimator library,
the PRN code generator) are passed in as oracle parameters; the two
second-order loop filters, whose sources are outside this translation unit,
are modelled from the specification text (see `LoopFilter`).
-/

set_option maxHeartbeats 1000000

/-- C `trunc` semantics on rationals: rounding toward zero, as used by the
    C cast to `int` and inside C `fmod`. -/
def ctrunc (q : ℚ) : ℤ := if 0 ≤ q then ⌊q⌋ else ⌈q⌉

/-- C `fmod` semantics on rationals: `x - trunc(x / y) * y`, the
    sign-matched remainder (same sign as the dividend `x`). -/
def cfmod (x y : ℚ) : ℚ := x - y * (ctrunc (x / y) : ℚ)

/-- C `round` semantics on rationals: round half away from zero. -/
def cround (q : ℚ) : ℤ := if 0 ≤ q then ⌊q + 1/2⌋ else ⌈q - 1/2⌉

theorem cfmod_nonneg_of_nonneg (x y : ℚ) (hx : 0 ≤ x) (hy : 0 < y) :
    0 ≤ cfmod x y := by
  have hdiv : (0 : ℚ) ≤ x / y := div_nonneg hx (le_of_lt hy)
  have hrw : cfmod x y = y * Int.fract (x / y) := by
    unfold cfmod ctrunc Int.fract
    rw [if_pos hdiv]
    field_simp
  rw [hrw]
  exact mul_nonneg (le_of_lt hy) (Int.fract_nonneg _)

theorem cfmod_lt_of_pos (x y : ℚ) (hy : 0 < y) : cfmod x y < y := by
  by_cases hx : 0 ≤ x
  · have hdiv : (0 : ℚ) ≤ x / y := div_nonneg hx (le_of_lt hy)
    have hrw : cfmod x y = y * Int.fract (x / y) := by
      unfold cfmod ctrunc Int.fract
      rw [if_pos hdiv]
      field_simp
    rw [hrw]
    calc y * Int.fract (x / y) < y * 1 :=
          mul_lt_mul_of_pos_left (Int.fract_lt_one _) hy
      _ = y := mul_one y
  · have hx' : x < 0 := lt_of_not_ge hx
    have hdiv : x / y < 0 := div_neg_of_neg_of_pos hx' hy
    have hrw : cfmod x y = x - y * (⌈x / y⌉ : ℚ) := by
      unfold cfmod ctrunc
      rw [if_neg (not_le.mpr hdiv)]
    have hle : x ≤ y * (⌈x / y⌉ : ℚ) := by
      have h1 : x / y ≤ (⌈x / y⌉ : ℚ) := Int.le_ceil _
      calc x = y * (x / y) := by field_simp
        _ ≤ y * (⌈x / y⌉ : ℚ) := mul_le_mul_of_nonneg_left h1 (le_of_lt hy)
    have : cfmod x y ≤ 0 := by rw [hrw]; linarith
    linarith

theorem neg_lt_cfmod (x y : ℚ) (hy : 0 < y) : -y < cfmod x y := by
  by_cases hx : 0 ≤ x
  · have := cfmod_nonneg_of_nonneg x y hx hy
    linarith
  · have hx' : x < 0 := lt_of_not_ge hx
    have hdiv : x / y < 0 := div_neg_of_neg_of_pos hx' hy
    have hrw : cfmod x y = x - y * (⌈x / y⌉ : ℚ) := by
      unfold cfmod ctrunc
      rw [if_neg (not_le.mpr hdiv)]
    have h1 : (⌈x / y⌉ : ℚ) < x / y + 1 := Int.ceil_lt_add_one _
    have h2 : y * (⌈x / y⌉ : ℚ) < y * (x / y + 1) :=
      mul_lt_mul_of_pos_left h1 hy
    have h3 : y * (x / y + 1) = x + y := by field_simp
    rw [hrw]
    linarith

theorem cfmod_eq_self_of_neg (x y : ℚ) (hx : x < 0) (hlow : -y < x)
    (hy : 0 < y) : cfmod x y = x := by
  have hdiv : x / y < 0 := div_neg_of_neg_of_pos hx hy
  have hgt : -1 < x / y := by
    rw [neg_lt, ← neg_div]
    rw [div_lt_one hy]
    linarith
  have hceil : ⌈x / y⌉ = 0 := by
    rw [Int.ceil_eq_zero_iff]
    constructor
    · simpa using hgt
    · exact le_of_lt hdiv
  unfold cfmod ctrunc
  rw [if_neg (not_le.mpr hdiv), hceil]
  simp

theorem cround_nonneg (q : ℚ) (h : 0 ≤ q) : 0 ≤ cround q := by
  unfold cround
  rw [if_pos h]
  rw [Int.le_floor]
  push_cast
  linarith

theorem cround_le_int_of_lt (q : ℚ) (n : ℤ) (h0 : 0 ≤ q) (h : q < (n : ℚ)) :
    cround q ≤ n := by
  unfold cround
  rw [if_pos h0]
  have : ⌊q + 1/2⌋ < n + 1 := by
    rw [Int.floor_lt]
    push_cast
    linarith
  omega

theorem cround_nonpos (q : ℚ) (h : q < 0) : cround q ≤ 0 := by
  unfold cround
  rw [if_neg (not_le.mpr h)]
  have : ⌈q - 1/2⌉ ≤ ⌈(0 : ℚ)⌉ := Int.ceil_le_ceil (by linarith)
  simpa using this

theorem neg_two_le_cround (q : ℚ) (hlow : -(5/2) < q) (h : q < 0) :
    -2 ≤ cround q := by
  unfold cround
  rw [if_neg (not_le.mpr h)]
  have : (-3 : ℤ) < ⌈q - 1/2⌉ := by
    rw [Int.lt_ceil]
    push_cast
    linarith
  omega

theorem qceil_eq_neg_floor (q : ℚ) : ⌈q⌉ = -⌊-q⌋ := by
  rw [Int.floor_neg]
  ring

/-- Header constant `GPS_TWO_PI` (from `GPS_L1_CA.h`, outside this
    translation unit): the double literal used by the block for 2*pi. -/
def GPS_TWO_PI : ℚ := 6.283185307179586

/-- Header constant `Galileo_E1_CODE_CHIP_RATE_HZ` (from `Galileo_E1.h`):
    the nominal Galileo E1 code chip rate, 1.023 Mchip/s. -/
def Galileo_E1_CODE_CHIP_RATE_HZ : ℚ := 1023000

/-- Header constant `Galileo_E1_B_CODE_LENGTH_CHIPS` (from `Galileo_E1.h`):
    the E1-B primary code length in chips. -/
def Galileo_E1_B_CODE_LENGTH_CHIPS : ℚ := 4092

/-- Macro `CN0_ESTIMATION_SAMPLES` (line 57 of the source). -/
def CN0_ESTIMATION_SAMPLES : ℕ := 10

/-- Macro `MINIMUM_VALID_CN0` (line 58 of the source). -/
def MINIMUM_VALID_CN0 : ℚ := 25

/-- Macro `MAXIMUM_LOCK_FAIL_COUNTER` (line 59 of the source). -/
def MAXIMUM_LOCK_FAIL_COUNTER : ℕ := 200

/-- The C expression `(int)(2*Galileo_E1_B_CODE_LENGTH_CHIPS)` used as the
    modulus of the code-phase reduction and as the wrap offset of the
    guard-padded local code table. -/
def code_length_half_chips : ℤ := ctrunc (2 * Galileo_E1_B_CODE_LENGTH_CHIPS)

/-- Complex sample (`gr_complex`), with exact rational components. -/
structure Cplx where
  re : ℚ
  im : ℚ
deriving DecidableEq

/-- The subset of the `Gnss_Synchro` interchange record that this block
    reads or writes (`gnss_synchro.h` is outside this translation unit). -/
structure Gnss_Synchro where
  PRN : ℕ
  Acq_delay_samples : ℚ
  Acq_doppler_hz : ℚ
  Acq_samplestamp_samples : ℤ
  Prompt_I : ℚ
  Prompt_Q : ℚ
  Tracking_timestamp_secs : ℚ
  Code_phase_secs : ℚ
  Carrier_phase_rads : ℚ
  CN0_dB_hz : ℚ
deriving DecidableEq

/-- Complex zero, `gr_complex(0,0)`. -/
def Cplx.zero : Cplx := ⟨0, 0⟩

/-- Value-initialised `Gnss_Synchro` record, as produced by
    `Gnss_Synchro current_synchro_data;` in the idle branch. -/
def Gnss_Synchro.defaultRec : Gnss_Synchro :=
  ⟨0, 0, 0, 0, 0, 0, 0, 0, 0, 0⟩

/-- Modelled from the spec: the classes `Tracking_2nd_PLL_filter` and
    `Tracking_2nd_DLL_filter` are not part of this translation unit; their
    state is spec section 4.1's single accumulator `x` together with the
    integration period `T = 0.004 s` and the coefficients `tau1 = 1/wn^2`,
    `tau2 = 2*zeta/wn` derived from the noise bandwidth. -/
structure LoopFilter where
  acc : ℚ
  T : ℚ
  tau1 : ℚ
  tau2 : ℚ
deriving DecidableEq

/-- Modelled from the spec: coefficient computation for a noise bandwidth
    `bw` with damping 0.707 and natural frequency `wn = bw / 0.53`
    (spec section 4.1). -/
def LoopFilter.of_bw (bw : ℚ) : LoopFilter :=
  let wn : ℚ := bw / 0.53
  { acc := 0, T := 0.004, tau1 := 1 / (wn * wn), tau2 := 2 * 0.707 / wn }

/-- Modelled from the spec: on each input `e` the filter updates its
    accumulator `x <- x + e*T/tau1` and outputs `x + e*tau2/tau1`
    (spec section 4.1).  Returns the NCO command and the updated filter. -/
def LoopFilter.step_nco (f : LoopFilter) (e : ℚ) : ℚ × LoopFilter :=
  let a : ℚ := f.acc + e * f.T / f.tau1
  (a + e * f.tau2 / f.tau1, { f with acc := a })

/-- Modelled from the spec: `Tracking_2nd_PLL_filter` reinitialisation on
    tracking start sets the accumulator so that the filter output (at zero
    phase error) equals the acquisition Doppler (spec section 4.1). -/
def pll_filter_init (f : LoopFilter) (acq_doppler_hz : ℚ) : LoopFilter :=
  { f with acc := acq_doppler_hz }

/-- Modelled from the spec: `Tracking_2nd_DLL_filter` reinitialisation on
    tracking start sets the accumulator so that the filter output (at zero
    code error) equals zero; the argument passed by the block
    (`d_acq_code_phase_samples`) is therefore not retained
    (spec section 4.1). -/
def dll_filter_init (f : LoopFilter) (_acq_code_phase_samples : ℚ) :
    LoopFilter :=
  { f with acc := 0 }

/-- Oracle bundling the external math-library calls made by one invocation
    of `general_work`: the five VOLK correlator outputs, the discriminators
    (`pll_cloop_two_quadrant_atan`, `dll_nc_vemlp_normalized`), the C/N0
    estimator and carrier lock detector (`galileo_e1_CN0_SNV`,
    `carrier_lock_detector`), complex magnitude (`std::abs`), and the
    values of the four local command variables that the source reads
    uninitialised in the idle branch of the dump writer. -/
structure Oracle where
  corrVE : Cplx
  corrE : Cplx
  corrP : Cplx
  corrL : Cplx
  corrVL : Cplx
  pll_atan : Cplx → ℚ
  dll_disc : Cplx → Cplx → Cplx → Cplx → ℚ
  cn0_snv : (ℕ → Cplx) → ℚ
  lock_det : (ℕ → Cplx) → ℚ
  cabs : Cplx → ℚ
  uninit_carr_error : ℚ
  uninit_carr_nco : ℚ
  uninit_code_error : ℚ
  uninit_code_nco : ℚ

/-- One field of the binary dump record, tagged with its on-disk type. -/
inductive DumpValue where
  | f32 : ℚ → DumpValue
  | u64 : ℤ → DumpValue
  | f64 : ℚ → DumpValue
deriving DecidableEq

/-- On-disk size in bytes of a dump field (`sizeof(float)`,
    `sizeof(unsigned long int)` on LP64, `sizeof(double)`). -/
def DumpValue.size : DumpValue → ℕ
  | f32 _ => 4
  | u64 _ => 8
  | f64 _ => 8

/-- Mutable state of `galileo_e1_dll_pll_veml_tracking_cc` (the `d_`
    members read or written by the embedded methods).  Heap arrays are
    total functions out of `ℤ`; the posted control messages are kept as a
    list modelling the external message queue contents. -/
structure TrackState where
  if_freq : ℚ
  fs_in : ℚ
  vector_length : ℤ
  early_late_spc_chips : ℚ
  very_early_late_spc_chips : ℚ
  dump : Bool
  dump_filename : String
  dump_file_open : Bool
  queue_present : Bool
  channel : ℕ
  acquisition_gnss_synchro : Gnss_Synchro
  acq_code_phase_samples : ℚ
  acq_carrier_doppler_hz : ℚ
  acq_sample_stamp : ℤ
  enable_tracking : Bool
  pull_in : Bool
  sample_counter : ℤ
  current_prn_length_samples : ℤ
  next_prn_length_samples : ℤ
  code_freq_hz : ℚ
  code_phase_step_chips : ℚ
  code_phase_samples : ℚ
  rem_code_phase_samples : ℚ
  next_rem_code_phase_samples : ℚ
  rem_carr_phase_rad : ℚ
  acc_carrier_phase_rad : ℚ
  carrier_doppler_hz : ℚ
  carrier_loop_filter : LoopFilter
  code_loop_filter : LoopFilter
  cn0_estimation_counter : ℕ
  Prompt_buffer : ℕ → Cplx
  carrier_lock_test : ℚ
  CN0_SNV_dB_Hz : ℚ
  carrier_lock_fail_counter : ℕ
  carrier_lock_threshold : ℚ
  ca_code : ℤ → Cplx
  very_early_code : ℤ → Cplx
  early_code : ℤ → Cplx
  prompt_code : ℤ → Cplx
  late_code : ℤ → Cplx
  very_late_code : ℤ → Cplx
  VE : Cplx
  E : Cplx
  P : Cplx
  L : Cplx
  VL : Cplx
  msgs : List (ℕ × ℕ)

/-- Constructor (source lines 91-189).  Members that the constructor
    leaves untouched (the acquisition handoff, heap array contents, the
    channel number, `d_next_prn_length_samples`, ...) are modelled as
    zero-initialised; no embedded theorem depends on those initial values. -/
def construct (if_freq fs_in : ℚ) (vector_length : ℤ)
    (queue_present dump : Bool) (dump_filename : String)
    (pll_bw_hz dll_bw_hz early_late_space_chips
      very_early_late_space_chips : ℚ) : TrackState :=
  { if_freq := if_freq
    fs_in := fs_in
    vector_length := vector_length
    early_late_spc_chips := early_late_space_chips
    very_early_late_spc_chips := very_early_late_space_chips
    dump := dump
    dump_filename := dump_filename
    dump_file_open := false
    queue_present := queue_present
    channel := 0
    acquisition_gnss_synchro := Gnss_Synchro.defaultRec
    acq_code_phase_samples := 0
    acq_carrier_doppler_hz := 0
    acq_sample_stamp := 0
    enable_tracking := false
    pull_in := false
    sample_counter := 0
    current_prn_length_samples := vector_length
    next_prn_length_samples := 0
    code_freq_hz := Galileo_E1_CODE_CHIP_RATE_HZ
    code_phase_step_chips := Galileo_E1_CODE_CHIP_RATE_HZ / fs_in
    code_phase_samples := 0
    rem_code_phase_samples := 0
    next_rem_code_phase_samples := 0
    rem_carr_phase_rad := 0
    acc_carrier_phase_rad := 0
    carrier_doppler_hz := 0
    carrier_loop_filter := LoopFilter.of_bw pll_bw_hz
    code_loop_filter := LoopFilter.of_bw dll_bw_hz
    cn0_estimation_counter := 0
    Prompt_buffer := fun _ => ⟨0, 0⟩
    carrier_lock_test := 1
    CN0_SNV_dB_Hz := 0
    carrier_lock_fail_counter := 0
    carrier_lock_threshold := 20
    ca_code := fun _ => ⟨0, 0⟩
    very_early_code := fun _ => ⟨0, 0⟩
    early_code := fun _ => ⟨0, 0⟩
    prompt_code := fun _ => ⟨0, 0⟩
    late_code := fun _ => ⟨0, 0⟩
    very_late_code := fun _ => ⟨0, 0⟩
    VE := ⟨0, 0⟩
    E := ⟨0, 0⟩
    P := ⟨0, 0⟩
    L := ⟨0, 0⟩
    VL := ⟨0, 0⟩
    msgs := [] }

/-- `set_gnss_synchro` (source lines 672-680). -/
def set_gnss_synchro (s : TrackState) (p : Gnss_Synchro) : TrackState :=
  { s with acquisition_gnss_synchro := p }

/-- Wrap padding of the local code table (source lines 221-230): after the
    generator has filled `ca_code[2 .. 2L+1]`, copy
    `ca_code[0] := ca_code[2L]`, `ca_code[1] := ca_code[2L+1]`,
    `ca_code[2L+2] := ca_code[2]`, `ca_code[2L+3] := ca_code[3]`. -/
def wrap_pad (f : ℤ → Cplx) : ℤ → Cplx := fun i =>
  if i = 0 then f code_length_half_chips
  else if i = 1 then f (code_length_half_chips + 1)
  else if i = code_length_half_chips + 2 then f 2
  else if i = code_length_half_chips + 3 then f 3
  else f i

/-- `start_tracking` (source lines 191-258).  The external PRN generator
    `galileo_e1_code_gen_complex_sampled`, which writes `2L` samples
    starting at `&d_ca_code[2]`, is abstracted by `gen`. -/
def start_tracking (gen : ℕ → Cplx) (s : TrackState) : TrackState :=
  let acq := s.acquisition_gnss_synchro
  let written : ℤ → Cplx := fun i =>
    if 2 ≤ i ∧ i < code_length_half_chips + 2 then gen (i - 2).toNat
    else s.ca_code i
  { s with
    acq_code_phase_samples := acq.Acq_delay_samples
    acq_carrier_doppler_hz := acq.Acq_doppler_hz
    acq_sample_stamp := acq.Acq_samplestamp_samples
    carrier_loop_filter := pll_filter_init s.carrier_loop_filter
      acq.Acq_doppler_hz
    code_loop_filter := dll_filter_init s.code_loop_filter
      acq.Acq_delay_samples
    ca_code := wrap_pad written
    carrier_lock_fail_counter := 0
    rem_code_phase_samples := 0
    rem_carr_phase_rad := 0
    next_rem_code_phase_samples := 0
    acc_carrier_phase_rad := 0
    code_phase_samples := acq.Acq_delay_samples
    carrier_doppler_hz := acq.Acq_doppler_hz
    next_prn_length_samples := s.vector_length
    pull_in := true
    enable_tracking := true }

/-- Chip-index computation of the code resampling loop (source line 303):
    `2 + round(fmod(tcode_half_chips - 2*very_early_late_spc_chips,
    code_length_half_chips))`. -/
def associated_chip_index (tcode_half_chips very_early_late_spc_chips : ℚ)
    (len2 : ℤ) : ℤ :=
  2 + cround (cfmod (tcode_half_chips - 2 * very_early_late_spc_chips)
    (len2 : ℚ))

/-- `update_local_code` (source lines 264-316): resample the guard-padded
    local code into the very-early super-array and take the four shifted
    sub-windows by copy.  Writes only the five scratch arrays. -/
def update_local_code (s : TrackState) : TrackState :=
  let code_phase_step_chips : ℚ := s.code_freq_hz / s.fs_in
  let code_phase_step_half_chips : ℚ := 2 * s.code_freq_hz / s.fs_in
  let rem_code_phase_half_chips : ℚ :=
    s.rem_code_phase_samples * (2 * s.code_freq_hz / s.fs_in)
  let tcode0 : ℚ := -rem_code_phase_half_chips
  let early_late_spc_samples : ℤ :=
    cround (s.early_late_spc_chips / code_phase_step_chips)
  let very_early_late_spc_samples : ℤ :=
    cround (s.very_early_late_spc_chips / code_phase_step_chips)
  let epl_loop_length_samples : ℤ :=
    s.current_prn_length_samples + very_early_late_spc_samples * 2
  let ve : ℤ → Cplx := fun i =>
    if 0 ≤ i ∧ i < epl_loop_length_samples then
      s.ca_code (associated_chip_index (tcode0 + i * code_phase_step_half_chips)
        s.very_early_late_spc_chips code_length_half_chips)
    else s.very_early_code i
  { s with
    very_early_code := ve
    early_code := fun i =>
      if 0 ≤ i ∧ i < s.current_prn_length_samples then
        ve (very_early_late_spc_samples - early_late_spc_samples + i)
      else s.early_code i
    prompt_code := fun i =>
      if 0 ≤ i ∧ i < s.current_prn_length_samples then
        ve (very_early_late_spc_samples + i)
      else s.prompt_code i
    late_code := fun i =>
      if 0 ≤ i ∧ i < s.current_prn_length_samples then
        ve (2 * very_early_late_spc_samples - early_late_spc_samples + i)
      else s.late_code i
    very_late_code := fun i =>
      if 0 ≤ i ∧ i < s.current_prn_length_samples then
        ve (2 * very_early_late_spc_samples + i)
      else s.very_late_code i }

/-- Carrier phase residual after one run of the `update_local_carrier`
    loop (source lines 321-333): the loop leaves
    `phase_rad = rem + n * (2*pi*doppler/fs)` and the residual is
    `fmod(phase_rad, GPS_TWO_PI)`. -/
def updateCarrierRem (rem doppler fs : ℚ) (n : ℕ) : ℚ :=
  cfmod (rem + (n : ℚ) * (GPS_TWO_PI * doppler / fs)) GPS_TWO_PI

/-- `update_local_carrier` (source lines 321-334).  The phasor array
    `d_carr_sign` is consumed only by the external correlator and is not
    materialised; the residual and accumulated phase updates are embedded. -/
def update_local_carrier (s : TrackState) : TrackState :=
  let rem1 : ℚ := updateCarrierRem s.rem_carr_phase_rad s.carrier_doppler_hz
    s.fs_in s.current_prn_length_samples.toNat
  { s with
    rem_carr_phase_rad := rem1
    acc_carrier_phase_rad := s.acc_carrier_phase_rad + rem1 }

/-- C/N0 estimation and lock-detector block of `general_work` (source
    lines 478-513): fill the prompt buffer for the first
    `CN0_ESTIMATION_SAMPLES` calls, then evaluate the estimators, update
    the fail counter, and on overflow post `(channel, 2)` to the queue,
    reset the counter and disable tracking. -/
def cn0_monitor_core (o : Oracle) (s : TrackState) : TrackState :=
  if s.cn0_estimation_counter < CN0_ESTIMATION_SAMPLES then
    { s with
      Prompt_buffer := fun j =>
        if j = s.cn0_estimation_counter then s.P else s.Prompt_buffer j
      cn0_estimation_counter := s.cn0_estimation_counter + 1 }
  else
    let cn0 : ℚ := o.cn0_snv s.Prompt_buffer
    let lock : ℚ := o.lock_det s.Prompt_buffer
    let fail1 : ℕ :=
      if s.carrier_lock_threshold < |lock| ∨ cn0 < MINIMUM_VALID_CN0 then
        s.carrier_lock_fail_counter + 1
      else s.carrier_lock_fail_counter - 1
    if MAXIMUM_LOCK_FAIL_COUNTER < fail1 then
      { s with
        cn0_estimation_counter := 0
        CN0_SNV_dB_Hz := cn0
        carrier_lock_test := lock
        msgs := if s.queue_present then s.msgs ++ [(s.channel, 2)] else s.msgs
        carrier_lock_fail_counter := 0
        enable_tracking := false }
    else
      { s with
        cn0_estimation_counter := 0
        CN0_SNV_dB_Hz := cn0
        carrier_lock_test := lock
        carrier_lock_fail_counter := fail1 }

/-- One C/N0-monitor invocation as seen from outside an epoch: the block
    runs only while tracking is enabled (it sits inside the enabled branch
    of `general_work`). -/
def cn0_monitor_step (o : Oracle) (s : TrackState) : TrackState :=
  if s.enable_tracking then cn0_monitor_core o s else s

/-- Externally visible effects of one `general_work` call: the optional
    output record written to `output_items[0]`, the number of input samples
    consumed, the scheduler return value, and the optional dump record. -/
structure WorkOut where
  output : Option Gnss_Synchro
  consumed : ℤ
  ret : ℤ
  dumpRec : Option (List DumpValue)
deriving DecidableEq

/-- `general_work` (source lines 360-636): pull-in alignment, running
    epoch, or idle pass-through, followed by the optional dump write,
    `consume_each` and the sample-counter advance. -/
def general_work (o : Oracle) (s : TrackState) : TrackState × WorkOut :=
  if s.enable_tracking then
    if s.pull_in then
      let acq_to_trk_delay_samples : ℤ := s.sample_counter - s.acq_sample_stamp
      let acq_trk_shif_correction_samples : ℚ :=
        (s.next_prn_length_samples : ℚ) -
          cfmod (acq_to_trk_delay_samples : ℚ) (s.next_prn_length_samples : ℚ)
      let samples_offset : ℤ :=
        cround (s.acq_code_phase_samples + acq_trk_shif_correction_samples)
      ({ s with
          sample_counter := s.sample_counter + samples_offset
          pull_in := false },
        { output := none, consumed := samples_offset, ret := 1,
          dumpRec := none })
    else
      let s1 := { s with current_prn_length_samples := s.next_prn_length_samples }
      let s2 := update_local_code s1
      let s3 := update_local_carrier s2
      let s4 := { s3 with
        VE := o.corrVE, E := o.corrE, P := o.corrP, L := o.corrL,
        VL := o.corrVL }
      let carr_error : ℚ := o.pll_atan s4.P / GPS_TWO_PI
      let pll_res := s4.carrier_loop_filter.step_nco carr_error
      let carr_nco : ℚ := pll_res.1
      let doppler1 : ℚ := s4.acq_carrier_doppler_hz + carr_nco
      let code_error : ℚ := o.dll_disc s4.VE s4.E s4.L s4.VL
      let dll_res := s4.code_loop_filter.step_nco code_error
      let code_nco : ℚ := dll_res.1
      let code_freq1 : ℚ := Galileo_E1_CODE_CHIP_RATE_HZ - code_nco
      let T_chip_seconds : ℚ := 1 / code_freq1
      let T_prn_seconds : ℚ := T_chip_seconds * Galileo_E1_B_CODE_LENGTH_CHIPS
      let T_prn_samples : ℚ := T_prn_seconds * s.fs_in
      let rem_code1 : ℚ := s4.next_rem_code_phase_samples
      let K_blk_samples : ℚ := T_prn_samples + rem_code1
      let next_prn1 : ℤ := cround K_blk_samples
      let next_rem1 : ℚ := K_blk_samples - (next_prn1 : ℚ)
      let s5 := { s4 with
        carrier_loop_filter := pll_res.2
        code_loop_filter := dll_res.2
        carrier_doppler_hz := doppler1
        code_freq_hz := code_freq1
        code_phase_step_chips := code_freq1 / s.fs_in
        rem_code_phase_samples := rem_code1
        next_prn_length_samples := next_prn1
        next_rem_code_phase_samples := next_rem1 }
      let s6 := cn0_monitor_core o s5
      let outRec : Gnss_Synchro := { s6.acquisition_gnss_synchro with
        Prompt_I := s6.P.im
        Prompt_Q := s6.P.re
        Tracking_timestamp_secs :=
          ((s6.sample_counter : ℚ) + (s6.next_prn_length_samples : ℚ) +
            s6.next_rem_code_phase_samples) / s6.fs_in
        Code_phase_secs := 0
        Carrier_phase_rads := s6.acc_carrier_phase_rad
        CN0_dB_hz := s6.CN0_SNV_dB_Hz }
      let rec19 : List DumpValue := [
        .f32 (o.cabs s6.VE), .f32 (o.cabs s6.E), .f32 (o.cabs s6.P),
        .f32 (o.cabs s6.L), .f32 (o.cabs s6.VL),
        .f32 s6.P.im, .f32 s6.P.re,
        .u64 s6.sample_counter,
        .f32 s6.acc_carrier_phase_rad,
        .f32 s6.carrier_doppler_hz, .f32 s6.code_freq_hz,
        .f32 carr_error, .f32 carr_nco, .f32 code_error, .f32 code_nco,
        .f32 s6.CN0_SNV_dB_Hz, .f32 s6.carrier_lock_test,
        .f32 s6.rem_code_phase_samples,
        .f64 ((s6.sample_counter : ℚ) + (s6.current_prn_length_samples : ℚ))]
      let s7 := { s6 with
        sample_counter := s6.sample_counter + s6.current_prn_length_samples }
      (s7, { output := some outRec, consumed := s6.current_prn_length_samples,
             ret := 1, dumpRec := if s.dump then some rec19 else none })
  else
    let s1 := { s with E := Cplx.zero, P := Cplx.zero, L := Cplx.zero }
    let recIdle : List DumpValue := [
      .f32 (o.cabs s1.VE), .f32 (o.cabs s1.E), .f32 (o.cabs s1.P),
      .f32 (o.cabs s1.L), .f32 (o.cabs s1.VL),
      .f32 s1.P.im, .f32 s1.P.re,
      .u64 s1.sample_counter,
      .f32 s1.acc_carrier_phase_rad,
      .f32 s1.carrier_doppler_hz, .f32 s1.code_freq_hz,
      .f32 o.uninit_carr_error, .f32 o.uninit_carr_nco,
      .f32 o.uninit_code_error, .f32 o.uninit_code_nco,
      .f32 s1.CN0_SNV_dB_Hz, .f32 s1.carrier_lock_test,
      .f32 s1.rem_code_phase_samples,
      .f64 ((s1.sample_counter : ℚ) + (s1.current_prn_length_samples : ℚ))]
    let s2 := { s1 with
      sample_counter := s1.sample_counter + s1.current_prn_length_samples }
    (s2, { output := some Gnss_Synchro.defaultRec,
           consumed := s.current_prn_length_samples, ret := 1,
           dumpRec := if s.dump then some recIdle else none })

/-- `set_channel` (source lines 640-663): store the channel number and,
    when dumping is enabled and the file is not yet open, append the
    channel number and `.dat` to the configured filename and open it.
    The second component is the name of the file opened by this call. -/
def set_channel (s : TrackState) (channel : ℕ) : TrackState × Option String :=
  let s1 := { s with channel := channel }
  if s.dump then
    if s.dump_file_open = false then
      let fn : String := s.dump_filename ++ toString channel ++ ".dat"
      ({ s1 with dump_filename := fn, dump_file_open := true }, some fn)
    else (s1, none)
  else (s1, none)

/-- Oracle whose external calls all return zero. -/
def oracle0 : Oracle :=
  { corrVE := Cplx.zero, corrE := Cplx.zero, corrP := Cplx.zero,
    corrL := Cplx.zero, corrVL := Cplx.zero,
    pll_atan := fun _ => 0, dll_disc := fun _ _ _ _ => 0,
    cn0_snv := fun _ => 0, lock_det := fun _ => 0, cabs := fun _ => 0,
    uninit_carr_error := 0, uninit_carr_nco := 0,
    uninit_code_error := 0, uninit_code_nco := 0 }

/-- Oracle describing a failing C/N0 window: the lock detector returns 21
    (above the constructed threshold 20) and the C/N0 estimate 0 dB-Hz. -/
def failOracle : Oracle :=
  { oracle0 with lock_det := fun _ => 21, cn0_snv := fun _ => 0 }

/-- Oracle for the threshold counterexample: the lock detector returns
    0.9 (above 0.85 but far below 20) and the C/N0 estimate 30 dB-Hz
    (above the 25 dB-Hz minimum). -/
def nineOracle : Oracle :=
  { oracle0 with lock_det := fun _ => 9/10, cn0_snv := fun _ => 30 }

/-- Concrete constructed block: `fs_in = 4 MHz`, `vector_length = 16000`,
    queue attached, dump enabled with filename template `"trk"`. -/
def baseState : TrackState :=
  construct 0 4000000 16000 true true "trk" 50 2 0.15 0.6

/-- Acquisition handoff of end-to-end scenario 1 of the spec:
    `acq_code_phase_samples = 123`, `acq_doppler_hz = 500`,
    `acq_sample_stamp = 0`. -/
def acqRec : Gnss_Synchro :=
  { Gnss_Synchro.defaultRec with
    PRN := 11
    Acq_delay_samples := 123
    Acq_doppler_hz := 500
    Acq_samplestamp_samples := 0 }

/-- Arbitrary concrete output of the external PRN generator. -/
def gen0 : ℕ → Cplx := fun _ => ⟨1, 0⟩

/-- Block state right after `set_gnss_synchro` plus `start_tracking` on
    `baseState`: enabled, in pull-in, `next_prn_length_samples = 16000`. -/
def stScenario : TrackState :=
  start_tracking gen0 (set_gnss_synchro baseState acqRec)

/-- Enabled steady-tracking state sitting exactly on a C/N0 evaluation
    window (`cn0_estimation_counter = CN0_ESTIMATION_SAMPLES`) with five
    accumulated lock failures. -/
def stWindow : TrackState :=
  { baseState with
    enable_tracking := true
    cn0_estimation_counter := 10
    carrier_lock_fail_counter := 5 }

theorem update_local_code_ca_code (s : TrackState) :
    (update_local_code s).ca_code = s.ca_code := rfl

theorem update_local_carrier_ca_code (s : TrackState) :
    (update_local_carrier s).ca_code = s.ca_code := rfl

theorem cn0_monitor_core_ca_code (o : Oracle) (s : TrackState) :
    (cn0_monitor_core o s).ca_code = s.ca_code := by
  simp only [cn0_monitor_core]
  repeat' split
  all_goals rfl

theorem general_work_ca_code (o : Oracle) (s : TrackState) :
    (general_work o s).1.ca_code = s.ca_code := by
  unfold general_work
  split
  · split
    · rfl
    · dsimp only []
      simp only [cn0_monitor_core_ca_code, update_local_code_ca_code,
        update_local_carrier_ca_code]
  · rfl

theorem wrap_pad_cyclic (f : ℤ → Cplx) :
    wrap_pad f 0 = wrap_pad f code_length_half_chips ∧
    wrap_pad f 1 = wrap_pad f (code_length_half_chips + 1) ∧
    wrap_pad f (code_length_half_chips + 2) = wrap_pad f 2 ∧
    wrap_pad f (code_length_half_chips + 3) = wrap_pad f 3 := by
  have h : code_length_half_chips = 8184 := by
    norm_num [code_length_half_chips, ctrunc, Galileo_E1_B_CODE_LENGTH_CHIPS]
  unfold wrap_pad
  rw [h]
  norm_num

/-- C6: after every `start_tracking()` the cyclic-extension invariant
    `ca_code[0] = ca_code[2L]`, `ca_code[1] = ca_code[2L+1]`,
    `ca_code[2L+2] = ca_code[2]`, `ca_code[2L+3] = ca_code[3]` holds
    (with `2L = code_length_half_chips`), and no `general_work` call
    (pull-in, running or idle) modifies `ca_code`, so the invariant is
    preserved by every later epoch. -/
theorem c6_ca_code_cyclic_and_frozen :
    ∀ (gen : ℕ → Cplx) (s : TrackState) (o : Oracle) (s2 : TrackState),
      ((start_tracking gen s).ca_code 0 =
          (start_tracking gen s).ca_code code_length_half_chips ∧
        (start_tracking gen s).ca_code 1 =
          (start_tracking gen s).ca_code (code_length_half_chips + 1) ∧
        (start_tracking gen s).ca_code (code_length_half_chips + 2) =
          (start_tracking gen s).ca_code 2 ∧
        (start_tracking gen s).ca_code (code_length_half_chips + 3) =
          (start_tracking gen s).ca_code 3) ∧
      (general_work o s2).1.ca_code = s2.ca_code := by
  intro gen s o s2
  constructor
  · simp only [start_tracking]
    exact wrap_pad_cyclic _
  · exact general_work_ca_code o s2

/-- C7 (loop filters modelled from the spec, section 4.1): reinitialising
    on tracking start makes the PLL filter output at zero error equal the
    acquisition Doppler and the DLL filter output at zero error equal
    zero; `start_tracking` performs exactly these two reinitialisations
    and starts `carrier_doppler_hz` at the acquisition Doppler. -/
theorem c7_loop_filter_reinit :
    ∀ (f : LoopFilter) (d a : ℚ) (gen : ℕ → Cplx) (s : TrackState),
      ((pll_filter_init f d).step_nco 0).1 = d ∧
      ((dll_filter_init f a).step_nco 0).1 = 0 ∧
      (start_tracking gen s).carrier_loop_filter =
        pll_filter_init s.carrier_loop_filter
          s.acquisition_gnss_synchro.Acq_doppler_hz ∧
      (start_tracking gen s).code_loop_filter =
        dll_filter_init s.code_loop_filter
          s.acquisition_gnss_synchro.Acq_delay_samples ∧
      (start_tracking gen s).carrier_doppler_hz =
        s.acquisition_gnss_synchro.Acq_doppler_hz := by
  intro f d a gen s
  refine ⟨?_, ?_, rfl, rfl, rfl⟩
  · simp [pll_filter_init, LoopFilter.step_nco]
  · simp [dll_filter_init, LoopFilter.step_nco]

/-- C9 (amended): with dumping enabled and the file not yet open,
    `set_channel` opens the file named `<dump_filename><channel>.dat` —
    the channel number and extension are appended directly, with no
    underscore separator — and stores the channel number. -/
theorem c9_dump_filename :
    ∀ (s : TrackState) (ch : ℕ), s.dump = true → s.dump_file_open = false →
      (set_channel s ch).2 =
        some (s.dump_filename ++ toString ch ++ ".dat") ∧
      (set_channel s ch).1.channel = ch := by
  intro s ch hd ho
  unfold set_channel
  rw [hd]
  simp [ho]

/-- C9 counterexample: with filename template `"trk"` and channel 3 the
    code opens `"trk3.dat"`, not the `"trk_3.dat"` demanded by the claim's
    `<dump_filename>_<channel>.dat` scheme. -/
theorem c9_counterexample :
    (set_channel baseState 3).2 = some "trk3.dat" ∧
    some "trk3.dat" ≠ some ("trk" ++ "_" ++ toString 3 ++ ".dat") := by
  constructor
  · rfl
  · decide

/-- C10: while `enable_tracking` is false, a `general_work` call still
    writes exactly one default-constructed synchro record, zeroes the
    Early, Prompt and Late correlator scalars, consumes
    `current_prn_length_samples` input samples, advances the sample
    counter by the same amount, and returns 1. -/
theorem c10_idle_epoch :
    ∀ (o : Oracle) (s : TrackState), s.enable_tracking = false →
      (general_work o s).2.output = some Gnss_Synchro.defaultRec ∧
      (general_work o s).1.E = Cplx.zero ∧
      (general_work o s).1.P = Cplx.zero ∧
      (general_work o s).1.L = Cplx.zero ∧
      (general_work o s).2.consumed = s.current_prn_length_samples ∧
      (general_work o s).1.sample_counter =
        s.sample_counter + s.current_prn_length_samples ∧
      (general_work o s).2.ret = 1 := by
  intro o s h
  simp [general_work, h]

theorem c10_witness :
    (general_work oracle0 baseState).2.output =
      some Gnss_Synchro.defaultRec ∧
    (general_work oracle0 baseState).2.consumed = 16000 ∧
    (general_work oracle0 baseState).2.ret = 1 := by
  have h := c10_idle_epoch oracle0 baseState rfl
  refine ⟨h.1, ?_, h.2.2.2.2.2.2⟩
  rw [h.2.2.2.2.1]
  rfl

/-- Enabled state with negative carrier Doppler (-1000 Hz) and an epoch of
    16013 samples, used to exhibit a negative carrier phase residual. -/
def stNeg : TrackState :=
  { baseState with
    carrier_doppler_hz := -1000
    current_prn_length_samples := 16013 }

/-- C3 (amended): after `update_local_carrier` the residual always lies
    strictly between `-GPS_TWO_PI` and `GPS_TWO_PI`, and it lies in
    `[0, GPS_TWO_PI)` whenever the final loop phase
    `rem + n*(2*pi*doppler/fs)` is nonnegative (in particular for
    nonnegative Doppler); the sign-matched `fmod` makes it negative when
    the final phase is negative, so the claimed lower bound 0 does not
    hold unconditionally. -/
theorem c3_rem_carr_phase_range :
    ∀ (rem doppler fs : ℚ) (n : ℕ),
      (-GPS_TWO_PI < updateCarrierRem rem doppler fs n ∧
        updateCarrierRem rem doppler fs n < GPS_TWO_PI) ∧
      (0 ≤ rem + (n : ℚ) * (GPS_TWO_PI * doppler / fs) →
        0 ≤ updateCarrierRem rem doppler fs n) := by
  intro rem doppler fs n
  have hpos : (0:ℚ) < GPS_TWO_PI := by norm_num [GPS_TWO_PI]
  unfold updateCarrierRem
  exact ⟨⟨neg_lt_cfmod _ _ hpos, cfmod_lt_of_pos _ _ hpos⟩,
    fun h => cfmod_nonneg_of_nonneg _ _ h hpos⟩

theorem c3_witness :
    0 ≤ (0:ℚ) + ((16000:ℕ) : ℚ) * (GPS_TWO_PI * 250 / 4000000) ∧
    0 ≤ updateCarrierRem 0 250 4000000 16000 ∧
    updateCarrierRem 0 250 4000000 16000 < GPS_TWO_PI := by
  have hh : 0 ≤ (0:ℚ) + ((16000:ℕ) : ℚ) * (GPS_TWO_PI * 250 / 4000000) := by
    norm_num [GPS_TWO_PI]
  exact ⟨hh, (c3_rem_carr_phase_range 0 250 4000000 16000).2 hh,
    (c3_rem_carr_phase_range 0 250 4000000 16000).1.2⟩

/-- C3 counterexample: with carrier Doppler -1000 Hz, `fs_in = 4 MHz`,
    zero initial residual and a 16013-sample epoch, the residual after
    `update_local_carrier` is strictly negative, violating the claimed
    invariant `0 ≤ rem_carr_phase_rad`. -/
theorem c3_counterexample :
    (update_local_carrier stNeg).rem_carr_phase_rad < 0 := by
  have hn : (((16013:ℤ).toNat : ℕ) : ℚ) = 16013 := by simp
  norm_num [update_local_carrier, updateCarrierRem, stNeg, baseState,
    construct, cfmod, ctrunc, GPS_TWO_PI, qceil_eq_neg_floor, hn]

/-- C5 (amended): the modular reduction of the resampling loop is the
    sign-matched platform `fmod` with no non-negativity correction, so it
    is negative for negative operands; the chip index
    `2 + round(fmod(tcode - 2*vel_chips, 2L))` stays within `[0, 2L+3]`
    only under the additional hypothesis
    `-5/2 < tcode - 2*very_early_late_spc_chips` (satisfied by the shipped
    configurations, where `|rem_half| ≤ 1/2` and the spacing is at most
    0.6 chips, but not by arbitrary spacings). -/
theorem c5_chip_index_range :
    ∀ (t v : ℚ) (len2 : ℤ), 3 ≤ len2 → -(5/2) < t - 2 * v →
      0 ≤ associated_chip_index t v len2 ∧
      associated_chip_index t v len2 ≤ len2 + 3 := by
  intro t v len2 hlen hx
  have hcast : (3:ℚ) ≤ (len2 : ℚ) := by exact_mod_cast hlen
  have hy : (0:ℚ) < (len2 : ℚ) := by linarith
  unfold associated_chip_index
  by_cases hx0 : 0 ≤ t - 2 * v
  · have m0 : 0 ≤ cfmod (t - 2 * v) (len2 : ℚ) :=
      cfmod_nonneg_of_nonneg _ _ hx0 hy
    have m1 : cfmod (t - 2 * v) (len2 : ℚ) < (len2 : ℚ) :=
      cfmod_lt_of_pos _ _ hy
    have r0 := cround_nonneg _ m0
    have r1 := cround_le_int_of_lt _ len2 m0 m1
    omega
  · have hneg : t - 2 * v < 0 := lt_of_not_ge hx0
    have hm : cfmod (t - 2 * v) (len2 : ℚ) = t - 2 * v :=
      cfmod_eq_self_of_neg _ _ hneg (by linarith) hy
    rw [hm]
    have r0 := neg_two_le_cround _ hx hneg
    have r1 := cround_nonpos _ hneg
    omega

theorem c5_witness :
    0 ≤ associated_chip_index 0 (3/5) 8184 ∧
    associated_chip_index 0 (3/5) 8184 ≤ 8184 + 3 :=
  c5_chip_index_range 0 (3/5) 8184 (by norm_num) (by norm_num)

/-- C5 counterexample: the code's modular reduction is negative on a
    negative operand (`fmod(-5/2, 8184) = -5/2`), and with a residual of
    half a sample (`tcode = -1/2`) and a very-early spacing of 1 chip the
    resulting chip index is -1, outside `[0, 2L+3]`. -/
theorem c5_counterexample :
    cfmod (-(5/2)) ((8184:ℤ) : ℚ) < 0 ∧
    associated_chip_index (-(1/2)) 1 8184 = -1 := by
  constructor
  · norm_num [cfmod, ctrunc, qceil_eq_neg_floor]
  · norm_num [associated_chip_index, cfmod, ctrunc, cround,
      qceil_eq_neg_floor]

theorem c9_witness :
    (set_channel baseState 7).2 = some ("trk" ++ toString 7 ++ ".dat") ∧
    (set_channel baseState 7).1.channel = 7 :=
  c9_dump_filename baseState 7 rfl rfl

theorem cn0_monitor_core_eval_fail (o : Oracle) (s : TrackState)
    (hc : ¬ s.cn0_estimation_counter < CN0_ESTIMATION_SAMPLES)
    (hf : s.carrier_lock_fail_counter ≤ 199) :
    (cn0_monitor_core o s).carrier_lock_fail_counter =
      if s.carrier_lock_threshold < |o.lock_det s.Prompt_buffer| ∨
          o.cn0_snv s.Prompt_buffer < MINIMUM_VALID_CN0 then
        s.carrier_lock_fail_counter + 1
      else s.carrier_lock_fail_counter - 1 := by
  by_cases hcond : s.carrier_lock_threshold < |o.lock_det s.Prompt_buffer| ∨
      o.cn0_snv s.Prompt_buffer < MINIMUM_VALID_CN0
  · have h200 : ¬ MAXIMUM_LOCK_FAIL_COUNTER <
        s.carrier_lock_fail_counter + 1 := by
      unfold MAXIMUM_LOCK_FAIL_COUNTER
      omega
    simp [cn0_monitor_core, hc, hcond, h200]
  · have h200 : ¬ MAXIMUM_LOCK_FAIL_COUNTER <
        s.carrier_lock_fail_counter - 1 := by
      unfold MAXIMUM_LOCK_FAIL_COUNTER
      omega
    simp [cn0_monitor_core, hc, hcond, h200]

theorem general_work_fail_counter (o : Oracle) (s : TrackState)
    (he : s.enable_tracking = true) (hp : s.pull_in = false)
    (hc : ¬ s.cn0_estimation_counter < CN0_ESTIMATION_SAMPLES)
    (hf : s.carrier_lock_fail_counter ≤ 199) :
    (general_work o s).1.carrier_lock_fail_counter =
      if s.carrier_lock_threshold < |o.lock_det s.Prompt_buffer| ∨
          o.cn0_snv s.Prompt_buffer < MINIMUM_VALID_CN0 then
        s.carrier_lock_fail_counter + 1
      else s.carrier_lock_fail_counter - 1 := by
  simp only [general_work, he, hp, update_local_code, update_local_carrier]
  rw [cn0_monitor_core_eval_fail]
  · simp
  · simpa using hc
  · simpa using hf

/-- C1 (amended): the constructor sets `carrier_lock_threshold = 20`, not
    0.85; consequently on every C/N0 evaluation window (while tracking and
    not in pull-in, with the counter below the loss-of-lock trip point)
    the fail counter is incremented exactly when
    `|carrier_lock_test| > 20` or the C/N0 estimate is below
    `MINIMUM_VALID_CN0 = 25`, and decremented toward 0 otherwise. -/
theorem c1_carrier_lock_threshold :
    (∀ (f q : ℚ) (vl : ℤ) (qp dm : Bool) (fn : String) (pb db el vel : ℚ),
      (construct f q vl qp dm fn pb db el vel).carrier_lock_threshold
        = 20) ∧
    (∀ (o : Oracle) (s : TrackState),
      s.enable_tracking = true → s.pull_in = false →
      ¬ s.cn0_estimation_counter < CN0_ESTIMATION_SAMPLES →
      s.carrier_lock_threshold = 20 →
      s.carrier_lock_fail_counter ≤ 199 →
      (general_work o s).1.carrier_lock_fail_counter =
        if (20:ℚ) < |o.lock_det s.Prompt_buffer| ∨
            o.cn0_snv s.Prompt_buffer < MINIMUM_VALID_CN0 then
          s.carrier_lock_fail_counter + 1
        else s.carrier_lock_fail_counter - 1) := by
  constructor
  · intro f q vl qp dm fn pb db el vel
    rfl
  · intro o s he hp hc hthr hf
    rw [general_work_fail_counter o s he hp hc hf, hthr]

theorem c1_witness :
    (general_work failOracle stWindow).1.carrier_lock_fail_counter = 6 := by
  have h := c1_carrier_lock_threshold.2 failOracle stWindow rfl rfl
    (by decide) rfl (by decide)
  rw [h]
  norm_num [failOracle, oracle0, stWindow, baseState, construct,
    MINIMUM_VALID_CN0, abs_of_nonneg]

/-- C1 counterexample: on an evaluation window with lock test 0.9 and
    C/N0 30 dB-Hz the claim (threshold 0.85) demands an increment from 5
    to 6, but the code (threshold 20) decrements the counter to 4. -/
theorem c1_counterexample :
    ((0.85:ℚ) < |nineOracle.lock_det stWindow.Prompt_buffer| ∨
      nineOracle.cn0_snv stWindow.Prompt_buffer < MINIMUM_VALID_CN0) ∧
    stWindow.carrier_lock_fail_counter = 5 ∧
    (general_work nineOracle stWindow).1.carrier_lock_fail_counter = 4 := by
  refine ⟨Or.inl (by norm_num [nineOracle, oracle0, stWindow, baseState,
    construct, abs_of_nonneg]), rfl, ?_⟩
  rw [general_work_fail_counter nineOracle stWindow rfl rfl (by decide)
    (by decide)]
  norm_num [nineOracle, oracle0, stWindow, baseState, construct,
    MINIMUM_VALID_CN0, abs_of_nonneg]

theorem cfmod_intCast_emod (a b : ℤ) (ha : 0 ≤ a) (hb : 0 < b) :
    cfmod (a : ℚ) (b : ℚ) = ((a % b : ℤ) : ℚ) := by
  have hbQ : (0:ℚ) < (b:ℚ) := by exact_mod_cast hb
  have hdiv : (0:ℚ) ≤ (a:ℚ) / (b:ℚ) :=
    div_nonneg (by exact_mod_cast ha) (le_of_lt hbQ)
  have h1 : b * (a / b) + a % b = a := Int.ediv_add_emod a b
  have h2 : 0 ≤ a % b := Int.emod_nonneg a (by omega)
  have h3 : a % b < b := Int.emod_lt_of_pos a hb
  have h4 : b * (a / b) ≤ a := by linarith
  have h5 : a < b * (a / b) + b := by linarith
  have hfloor : ⌊(a:ℚ) / (b:ℚ)⌋ = a / b := by
    rw [Int.floor_eq_iff]
    constructor
    · rw [le_div_iff₀ hbQ]
      have h4Q : ((b:ℚ)) * ((a / b : ℤ) : ℚ) ≤ (a:ℚ) := by exact_mod_cast h4
      linarith
    · rw [div_lt_iff₀ hbQ]
      have h5Q : (a:ℚ) < (b:ℚ) * ((a / b : ℤ) : ℚ) + (b:ℚ) := by
        exact_mod_cast h5
      linarith
  unfold cfmod ctrunc
  rw [if_pos hdiv, hfloor]
  have : ((a % b : ℤ) : ℚ) = (a:ℚ) - (b:ℚ) * ((a / b : ℤ) : ℚ) := by
    linarith [show ((b:ℚ)) * ((a / b : ℤ) : ℚ) + ((a % b : ℤ) : ℚ) = (a:ℚ)
      from by exact_mod_cast h1]
  linarith [this]

/-- C4 (amended): a pull-in call computes
    `samples_offset = round(acq_code_phase_samples + (next_prn_length -
    (sample_counter - acq_sample_stamp) mod next_prn_length))` (with
    `next_prn_length = vector_length` right after `start_tracking`),
    consumes exactly that many samples, advances the sample counter by the
    same amount, leaves pull-in and returns 1 — but it does not write any
    output record: the acquisition-stamped record promised by the claim is
    never stored. -/
theorem c4_pull_in_alignment :
    ∀ (o : Oracle) (s : TrackState) (off : ℤ),
      s.enable_tracking = true → s.pull_in = true →
      s.acq_sample_stamp ≤ s.sample_counter →
      0 < s.next_prn_length_samples →
      s.next_prn_length_samples = s.vector_length →
      off = cround (s.acq_code_phase_samples + ((s.vector_length : ℚ) -
        (((s.sample_counter - s.acq_sample_stamp) % s.vector_length : ℤ)
          : ℚ))) →
      (general_work o s).2.consumed = off ∧
      (general_work o s).1.sample_counter = s.sample_counter + off ∧
      (general_work o s).1.pull_in = false ∧
      (general_work o s).2.ret = 1 ∧
      (general_work o s).2.output = none := by
  intro o s off he hp hstamp hposn hvl hoff
  have hmod : cfmod (((s.sample_counter - s.acq_sample_stamp : ℤ)) : ℚ)
      ((s.next_prn_length_samples : ℤ) : ℚ) =
      (((s.sample_counter - s.acq_sample_stamp) % s.next_prn_length_samples
        : ℤ) : ℚ) :=
    cfmod_intCast_emod _ _ (by omega) hposn
  rw [hvl] at hmod
  have hoff2 : off = cround (s.acq_code_phase_samples +
      ((s.vector_length : ℚ) -
        cfmod (((s.sample_counter - s.acq_sample_stamp : ℤ)) : ℚ)
          ((s.vector_length : ℤ) : ℚ))) := by
    rw [hmod, hoff]
  simp only [general_work, he, hp, ite_true, ite_false]
  rw [hvl, hoff2]
  refine ⟨?_, ?_, ?_, ?_, ?_⟩ <;> simp

theorem c4_witness :
    (general_work oracle0 stScenario).2.consumed = 16123 ∧
    (general_work oracle0 stScenario).1.sample_counter = 16123 ∧
    (general_work oracle0 stScenario).1.pull_in = false := by
  have hoff : (16123:ℤ) = cround (stScenario.acq_code_phase_samples +
      ((stScenario.vector_length : ℚ) -
        (((stScenario.sample_counter - stScenario.acq_sample_stamp) %
          stScenario.vector_length : ℤ) : ℚ))) := by
    norm_num [stScenario, start_tracking, set_gnss_synchro, baseState,
      construct, acqRec, Gnss_Synchro.defaultRec, cround]
  have h := c4_pull_in_alignment oracle0 stScenario 16123 rfl rfl
    (by decide) (by decide) (by decide) hoff
  exact ⟨h.1, h.2.1, h.2.2.1⟩

/-- C4 counterexample: the pull-in call of scenario 1 returns 1 — telling
    the scheduler that one output item was produced — without ever writing
    the output record, so no acquisition-stamped record is emitted. -/
theorem c4_counterexample :
    (general_work oracle0 stScenario).2.ret = 1 ∧
    (general_work oracle0 stScenario).2.output = none := ⟨rfl, rfl⟩

theorem cn0_monitor_core_sample_counter (o : Oracle) (s : TrackState) :
    (cn0_monitor_core o s).sample_counter = s.sample_counter := by
  simp only [cn0_monitor_core]
  repeat' split
  all_goals rfl

theorem cn0_monitor_core_current (o : Oracle) (s : TrackState) :
    (cn0_monitor_core o s).current_prn_length_samples =
      s.current_prn_length_samples := by
  simp only [cn0_monitor_core]
  repeat' split
  all_goals rfl

/-- Running (non-pull-in) tracking state on top of scenario 1. -/
def stRun : TrackState := { stScenario with pull_in := false }

/-- C8 (amended): with dumping enabled, every `general_work` call that is
    not a pull-in alignment call — a running epoch or an idle
    (tracking-disabled) call alike, since both fall through to the dump
    block — appends exactly one dump record of 19 fields, in order
    `f32 |VE|, |E|, |P|, |L|, |VL|, Prompt_I, Prompt_Q`,
    `u64 sample_counter`, `f32 acc_carrier_phase_rad, carrier_doppler_hz,
    code_freq_hz, carr_error, carr_nco, code_error, code_nco, CN0_dB_Hz,
    carrier_lock_test, rem_code_phase_samples`, and
    `f64 (sample_counter + current_prn_length_samples)`, totalling
    84 bytes; a pull-in call appends nothing. -/
theorem c8_dump_record_layout :
    ∀ (o : Oracle) (s : TrackState),
      (s.enable_tracking = false ∨ s.pull_in = false) → s.dump = true →
      ∃ ce cn de dn : ℚ,
        (general_work o s).2.dumpRec = some [
          .f32 (o.cabs (general_work o s).1.VE),
          .f32 (o.cabs (general_work o s).1.E),
          .f32 (o.cabs (general_work o s).1.P),
          .f32 (o.cabs (general_work o s).1.L),
          .f32 (o.cabs (general_work o s).1.VL),
          .f32 (general_work o s).1.P.im,
          .f32 (general_work o s).1.P.re,
          .u64 s.sample_counter,
          .f32 (general_work o s).1.acc_carrier_phase_rad,
          .f32 (general_work o s).1.carrier_doppler_hz,
          .f32 (general_work o s).1.code_freq_hz,
          .f32 ce, .f32 cn, .f32 de, .f32 dn,
          .f32 (general_work o s).1.CN0_SNV_dB_Hz,
          .f32 (general_work o s).1.carrier_lock_test,
          .f32 (general_work o s).1.rem_code_phase_samples,
          .f64 ((s.sample_counter : ℚ) +
            ((general_work o s).1.current_prn_length_samples : ℚ))] ∧
        Option.map List.length (general_work o s).2.dumpRec = some 19 ∧
        Option.map (fun l => (List.map DumpValue.size l).sum)
          (general_work o s).2.dumpRec = some 84 := by
  intro o s hcase hd
  cases he : s.enable_tracking with
  | false =>
    refine ⟨o.uninit_carr_error, o.uninit_carr_nco, o.uninit_code_error,
      o.uninit_code_nco, ?_, ?_, ?_⟩
    · simp [general_work, he, hd]
    · simp [general_work, he, hd]
    · simp [general_work, he, hd, DumpValue.size]
  | true =>
    have hp : s.pull_in = false := by
      rcases hcase with h | h
      · rw [he] at h
        exact absurd h (by simp)
      · exact h
    refine ⟨o.pll_atan o.corrP / GPS_TWO_PI,
      (s.carrier_loop_filter.step_nco (o.pll_atan o.corrP / GPS_TWO_PI)).1,
      o.dll_disc o.corrVE o.corrE o.corrL o.corrVL,
      (s.code_loop_filter.step_nco
        (o.dll_disc o.corrVE o.corrE o.corrL o.corrVL)).1, ?_, ?_, ?_⟩
    · simp [general_work, he, hp, hd, update_local_code,
        update_local_carrier, cn0_monitor_core_sample_counter,
        cn0_monitor_core_current]
    · simp [general_work, he, hp, hd]
    · simp [general_work, he, hp, hd, DumpValue.size]

theorem c8_witness :
    Option.map List.length (general_work oracle0 stRun).2.dumpRec
      = some 19 ∧
    Option.map (fun l => (List.map DumpValue.size l).sum)
      (general_work oracle0 stRun).2.dumpRec = some 84 ∧
    Option.map List.length (general_work oracle0 baseState).2.dumpRec
      = some 19 ∧
    Option.map (fun l => (List.map DumpValue.size l).sum)
      (general_work oracle0 baseState).2.dumpRec = some 84 := by
  obtain ⟨ce1, cn1, de1, dn1, hrec1, hlen1, hsum1⟩ :=
    c8_dump_record_layout oracle0 stRun (Or.inr rfl) rfl
  obtain ⟨ce2, cn2, de2, dn2, hrec2, hlen2, hsum2⟩ :=
    c8_dump_record_layout oracle0 baseState (Or.inl rfl) rfl
  exact ⟨hlen1, hsum1, hlen2, hsum2⟩

/-- C8 counterexample: a pull-in call with dumping enabled appends no dump
    record at all, refuting the claim that each call to the per-epoch
    entry point appends one 84-byte record. -/
theorem c8_counterexample :
    stScenario.dump = true ∧
    (general_work oracle0 stScenario).2.dumpRec = none := ⟨rfl, rfl⟩

theorem cn0_fill_step (o : Oracle) (s : TrackState)
    (he : s.enable_tracking = true)
    (hc : s.cn0_estimation_counter < CN0_ESTIMATION_SAMPLES) :
    cn0_monitor_step o s = { s with
      Prompt_buffer := fun j =>
        if j = s.cn0_estimation_counter then s.P else s.Prompt_buffer j
      cn0_estimation_counter := s.cn0_estimation_counter + 1 } := by
  simp [cn0_monitor_step, cn0_monitor_core, he, hc]

theorem cn0_fill_iter (o : Oracle) (s : TrackState) (j : ℕ)
    (he : s.enable_tracking = true) (h0 : s.cn0_estimation_counter = 0)
    (hj : j ≤ CN0_ESTIMATION_SAMPLES) :
    ∃ buf, (cn0_monitor_step o)^[j] s =
      { s with Prompt_buffer := buf, cn0_estimation_counter := j } := by
  induction j with
  | zero =>
    refine ⟨s.Prompt_buffer, ?_⟩
    rw [Function.iterate_zero_apply, ← h0]
  | succ j ih =>
    obtain ⟨buf, hbuf⟩ := ih (Nat.le_of_succ_le hj)
    rw [Function.iterate_succ_apply', hbuf,
      cn0_fill_step o ({ s with Prompt_buffer := buf, cn0_estimation_counter := j }) he hj]
    exact ⟨_, rfl⟩

theorem cn0_window_no_trip (o : Oracle) (s : TrackState)
    (hfail : ∀ b, s.carrier_lock_threshold < |o.lock_det b| ∨
      o.cn0_snv b < MINIMUM_VALID_CN0)
    (he : s.enable_tracking = true) (h0 : s.cn0_estimation_counter = 0)
    (hlt : s.carrier_lock_fail_counter < 200) :
    ∃ buf cn lk, (cn0_monitor_step o)^[11] s = { s with
      Prompt_buffer := buf
      CN0_SNV_dB_Hz := cn
      carrier_lock_test := lk
      carrier_lock_fail_counter := s.carrier_lock_fail_counter + 1 } := by
  obtain ⟨buf, hbuf⟩ := cn0_fill_iter o s 10 he h0 (by decide)
  have h11 : (cn0_monitor_step o)^[11] s =
      cn0_monitor_step o ((cn0_monitor_step o)^[10] s) :=
    Function.iterate_succ_apply' _ 10 s
  rw [h11, hbuf]
  have hcond := hfail buf
  have h200 : ¬ MAXIMUM_LOCK_FAIL_COUNTER <
      s.carrier_lock_fail_counter + 1 := by
    unfold MAXIMUM_LOCK_FAIL_COUNTER
    omega
  refine ⟨buf, o.cn0_snv buf, o.lock_det buf, ?_⟩
  simp [cn0_monitor_step, cn0_monitor_core, CN0_ESTIMATION_SAMPLES, he,
    hcond, h200, h0]

theorem cn0_window_trip (o : Oracle) (s : TrackState)
    (hfail : ∀ b, s.carrier_lock_threshold < |o.lock_det b| ∨
      o.cn0_snv b < MINIMUM_VALID_CN0)
    (he : s.enable_tracking = true) (h0 : s.cn0_estimation_counter = 0)
    (hf : s.carrier_lock_fail_counter = 200) :
    ∃ buf cn lk, (cn0_monitor_step o)^[11] s = { s with
      Prompt_buffer := buf
      CN0_SNV_dB_Hz := cn
      carrier_lock_test := lk
      msgs := if s.queue_present then s.msgs ++ [(s.channel, 2)]
        else s.msgs
      carrier_lock_fail_counter := 0
      enable_tracking := false } := by
  obtain ⟨buf, hbuf⟩ := cn0_fill_iter o s 10 he h0 (by decide)
  have h11 : (cn0_monitor_step o)^[11] s =
      cn0_monitor_step o ((cn0_monitor_step o)^[10] s) :=
    Function.iterate_succ_apply' _ 10 s
  rw [h11, hbuf]
  have hcond := hfail buf
  have h200 : MAXIMUM_LOCK_FAIL_COUNTER <
      s.carrier_lock_fail_counter + 1 := by
    unfold MAXIMUM_LOCK_FAIL_COUNTER
    omega
  refine ⟨buf, o.cn0_snv buf, o.lock_det buf, ?_⟩
  simp [cn0_monitor_step, cn0_monitor_core, CN0_ESTIMATION_SAMPLES,
    MAXIMUM_LOCK_FAIL_COUNTER, he, hcond, h200, h0, hf]

theorem c2_aux (o : Oracle) (s : TrackState)
    (hfail : ∀ b, s.carrier_lock_threshold < |o.lock_det b| ∨
      o.cn0_snv b < MINIMUM_VALID_CN0)
    (he : s.enable_tracking = true) (h0 : s.cn0_estimation_counter = 0)
    (hz : s.carrier_lock_fail_counter = 0) :
    ∀ k, k ≤ 200 → ∃ buf cn lk,
      (cn0_monitor_step o)^[11 * k] s = { s with
        Prompt_buffer := buf
        CN0_SNV_dB_Hz := cn
        carrier_lock_test := lk
        carrier_lock_fail_counter := k } := by
  intro k
  induction k with
  | zero =>
    intro _
    refine ⟨s.Prompt_buffer, s.CN0_SNV_dB_Hz, s.carrier_lock_test, ?_⟩
    rw [Nat.mul_zero, Function.iterate_zero_apply, ← hz]
  | succ k ih =>
    intro hk
    obtain ⟨buf, cn, lk, hrec⟩ := ih (by omega)
    have hmul : 11 * (k + 1) = 11 + 11 * k := by ring
    rw [hmul, Function.iterate_add_apply, hrec]
    obtain ⟨buf2, cn2, lk2, hrec2⟩ := cn0_window_no_trip o
      ({ s with Prompt_buffer := buf, CN0_SNV_dB_Hz := cn, carrier_lock_test := lk, carrier_lock_fail_counter := k })
      hfail he h0 (by show k < 200; omega)
    rw [hrec2]
    exact ⟨buf2, cn2, lk2, rfl⟩

/-- C2: from steady tracking (zero fail counter, empty queue, tracking
    enabled) under consecutively failing C/N0 evaluation windows, the fail
    counter equals the number of elapsed windows for the first 200
    windows, with tracking still enabled and no message posted; on the
    201st consecutive failing window (the `MAX_FAIL + 1`-th) the block
    posts the control message `(channel, 2)`, resets the fail counter to
    0, and disables tracking — and never earlier. -/
theorem c2_loss_of_lock_trip :
    ∀ (o : Oracle) (s : TrackState),
      (∀ b, s.carrier_lock_threshold < |o.lock_det b| ∨
        o.cn0_snv b < MINIMUM_VALID_CN0) →
      s.enable_tracking = true → s.cn0_estimation_counter = 0 →
      s.carrier_lock_fail_counter = 0 → s.queue_present = true →
      s.msgs = [] →
      (∀ k, k ≤ 200 →
        ((cn0_monitor_step o)^[11 * k] s).carrier_lock_fail_counter = k ∧
        ((cn0_monitor_step o)^[11 * k] s).enable_tracking = true ∧
        ((cn0_monitor_step o)^[11 * k] s).msgs = []) ∧
      ((cn0_monitor_step o)^[11 * 201] s).carrier_lock_fail_counter = 0 ∧
      ((cn0_monitor_step o)^[11 * 201] s).enable_tracking = false ∧
      ((cn0_monitor_step o)^[11 * 201] s).msgs = [(s.channel, 2)] := by
  intro o s hfail he h0 hz hq hm
  constructor
  · intro k hk
    obtain ⟨buf, cn, lk, hrec⟩ := c2_aux o s hfail he h0 hz k hk
    rw [hrec]
    exact ⟨rfl, he, hm⟩
  · have h201 : 11 * 201 = 11 + 11 * 200 := by ring
    obtain ⟨buf, cn, lk, hrec⟩ := c2_aux o s hfail he h0 hz 200 (le_refl _)
    rw [h201, Function.iterate_add_apply, hrec]
    obtain ⟨buf2, cn2, lk2, hrec2⟩ := cn0_window_trip o
      ({ s with Prompt_buffer := buf, CN0_SNV_dB_Hz := cn, carrier_lock_test := lk, carrier_lock_fail_counter := 200 })
      hfail he h0 rfl
    rw [hrec2]
    refine ⟨rfl, rfl, ?_⟩
    simp [hq, hm]

theorem c2_witness :
    ((cn0_monitor_step failOracle)^[11 * 200] stScenario).enable_tracking
      = true ∧
    ((cn0_monitor_step failOracle)^[11 * 200] stScenario).msgs = [] ∧
    ((cn0_monitor_step failOracle)^[11 * 201] stScenario).enable_tracking
      = false ∧
    ((cn0_monitor_step failOracle)^[11 * 201] stScenario).msgs
      = [(stScenario.channel, 2)] := by
  have h := c2_loss_of_lock_trip failOracle stScenario
    (fun b => Or.inl (by norm_num [stScenario, start_tracking,
      set_gnss_synchro, baseState, construct, failOracle, oracle0,
      abs_of_nonneg])) rfl rfl rfl rfl rfl
  exact ⟨(h.1 200 (by norm_num)).2.1, (h.1 200 (by norm_num)).2.2,
    h.2.2.1, h.2.2.2⟩
